import Mathlib

/-!
Shallow embedding of the SMTP session state machine of `src/smtp/protocol.rs`
(struct `Mail`, enum `State`, struct `Connection`, method `Connection::handle_smtp`),
together with theorems checking the specification's claims about it.

Replies (`&[u8]` in the source) are modelled as `String` values: every reply the
source produces is ASCII, so byte sequences and character strings coincide.
Errors produced through `anyhow::Context` / `anyhow::bail!` are modelled by the
enumeration `ProtocolError`, one constructor per distinct error site.
-/

deriving instance DecidableEq for Except

namespace Rubbermail

/-- The Unicode `White_Space` property, as used by Rust's `char::is_whitespace`
(which underlies `str::split_whitespace` in `handle_smtp`). -/
def rustIsWhitespace (c : Char) : Bool :=
  c = ' ' || c = '\t' || c = '\n' || c = '\x0b' || c = '\x0c' || c = '\r' ||
  c.val = 0x85 || c.val = 0xa0 || c.val = 0x1680 ||
  (0x2000 ≤ c.val && c.val ≤ 0x200a) ||
  c.val = 0x2028 || c.val = 0x2029 || c.val = 0x202f || c.val = 0x205f ||
  c.val = 0x3000

/-- Helper for `splitWhitespace`: `cur` is the current token accumulated in
reverse. Tokens are maximal runs of non-whitespace characters; no empty token
is ever produced, matching Rust's `str::split_whitespace`. -/
def splitWhitespaceAux : List Char → List Char → List String
  | [], [] => []
  | [], cur => [String.mk cur.reverse]
  | c :: cs, cur =>
    if rustIsWhitespace c then
      match cur with
      | [] => splitWhitespaceAux cs []
      | _ => String.mk cur.reverse :: splitWhitespaceAux cs []
    else splitWhitespaceAux cs (c :: cur)

/-- Rust's `str::split_whitespace`, collected into a list. -/
def splitWhitespace (s : String) : List String :=
  splitWhitespaceAux s.data []

/-- Rust's `str::to_lowercase` applied to a command token. (Rust performs full
Unicode lowercasing; `Char.toLower` lowercases the ASCII range, which agrees
with Rust on every character whose lowercase form is one of the ASCII command
verbs compared against in `handle_smtp`.) -/
def toLowercase (s : String) : String :=
  String.mk (s.data.map Char.toLower)

/-- Rust's `str::strip_prefix`: `some` of the remainder when `s` starts with
`p`, `none` otherwise. -/
def stripLeading (p s : String) : Option String :=
  if p.data.isPrefixOf s.data then some (String.mk (s.data.drop p.data.length))
  else none

/-- Rust's `str::ends_with` for string patterns. -/
def rustEndsWith (s suffix : String) : Bool :=
  List.isSuffixOf suffix.data s.data

/-- `struct Mail` of `protocol.rs`. -/
structure Mail where
  «from» : String
  «to» : List String
  data : String
deriving Repr, DecidableEq

/-- `enum State` of `protocol.rs`. -/
inductive State where
  | Ready
  | Acknowledged
  | ReceivingRcpt (mail : Mail)
  | ReceivingData (mail : Mail)
  | Received (mail : Mail)
deriving Repr, DecidableEq

/-- `struct Connection` of `protocol.rs`. -/
structure Connection where
  state : State
  ehlo_greeting : String
deriving Repr, DecidableEq

def SMTP_OK : String := "250 Ok\n"
def SMTP_AUTH_OK : String := "235 Ok\n"
def SMTP_SEND_ME_DATA : String := "354 End data with <CR><LF>.<CR><LF>\n"
def SMTP_GOODBYE : String := "221 Bye\n"
def SMTP_EMPTY : String := ""

/-- The distinct error sites of `handle_smtp` (all `anyhow` errors in the
source). The spec groups `emptyMail`/`incorrectMail`/`emptyRcpt`/`incorrectRcpt`
under the name `Malformed`, `emptyCommand` is its `EmptyCommand`, and
`unexpectedCommand` its `UnexpectedCommand`. -/
inductive ProtocolError where
  | emptyCommand
  | emptyMail
  | incorrectMail
  | emptyRcpt
  | incorrectRcpt
  | unexpectedCommand
deriving Repr, DecidableEq

/-- `Connection::new`: initial state `Ready`, greeting
`format!("250-{domain} Hello {domain}\n250 AUTH PLAIN LOGIN\n")`. -/
def Connection.new (domain : String) : Connection :=
  { state := State.Ready
    ehlo_greeting :=
      "250-" ++ domain ++ " Hello " ++ domain ++ "\n250 AUTH PLAIN LOGIN\n" }

/-- The `(_, State::ReceivingData(mut mail))` arm of `handle_smtp`: append the
raw line to the body, reply `250 Ok` exactly when the raw line ends with
`\r\n.\r\n`, stay in `ReceivingData`. -/
def receivingDataArm (c : Connection) (raw_msg : String) (mail : Mail) :
    Except ProtocolError String × Connection :=
  let resp := if rustEndsWith raw_msg "\r\n.\r\n" then SMTP_OK else SMTP_EMPTY
  (Except.ok resp,
   { c with state := State.ReceivingData { mail with data := mail.data ++ raw_msg } })

/-- `Connection::handle_smtp`. The result is the pair of the returned
`Result<&[u8]>` and the connection as the method leaves it (`self` after the
call, errors included).

The source first extracts the command token (`?`-failing with
"received empty command" BEFORE the state is touched), then executes
`replace(&mut self.state, State::Ready)` and dispatches an ordered `match` on
`(command, state)`. The ordered match is rendered below as an if-chain on the
command with a nested state match per command; each branch is the first source
arm whose pattern matches, so arms that do not assign `self.state` (the
noop-group, `auth`, `quit` outside `ReceivingData`, and every error path after
the replace) leave the connection in `State.Ready`. -/
def handle_smtp (c : Connection) (raw_msg : String) :
    Except ProtocolError String × Connection :=
  match splitWhitespace raw_msg with
  | [] => (Except.error ProtocolError.emptyCommand, c)
  | tok :: rest =>
    let command := toLowercase tok
    let state := c.state
    if command = "ehlo" then
      match state with
      | State.Ready =>
        (Except.ok c.ehlo_greeting, { c with state := State.Acknowledged })
      | State.ReceivingData mail => receivingDataArm c raw_msg mail
      | _ => (Except.error ProtocolError.unexpectedCommand, { c with state := State.Ready })
    else if command = "helo" then
      match state with
      | State.Ready => (Except.ok SMTP_OK, { c with state := State.Acknowledged })
      | State.ReceivingData mail => receivingDataArm c raw_msg mail
      | _ => (Except.error ProtocolError.unexpectedCommand, { c with state := State.Ready })
    else if command = "noop" ∨ command = "help" ∨ command = "info" ∨
        command = "vrfy" ∨ command = "expn" then
      (Except.ok SMTP_OK, { c with state := State.Ready })
    else if command = "rset" then
      (Except.ok SMTP_OK, { c with state := State.Ready })
    else if command = "auth" then
      (Except.ok SMTP_AUTH_OK, { c with state := State.Ready })
    else if command = "mail" then
      match state with
      | State.Acknowledged =>
        match rest with
        | [] => (Except.error ProtocolError.emptyMail, { c with state := State.Ready })
        | fromTok :: _ =>
          match stripLeading "FROM:" fromTok with
          | none =>
            (Except.error ProtocolError.incorrectMail, { c with state := State.Ready })
          | some fromAddr =>
            (Except.ok SMTP_OK,
             { c with state :=
                State.ReceivingRcpt { «from» := fromAddr, «to» := [], data := "" } })
      | State.ReceivingData mail => receivingDataArm c raw_msg mail
      | _ => (Except.error ProtocolError.unexpectedCommand, { c with state := State.Ready })
    else if command = "rcpt" then
      match state with
      | State.ReceivingRcpt mail =>
        match rest with
        | [] => (Except.error ProtocolError.emptyRcpt, { c with state := State.Ready })
        | toTok :: _ =>
          match stripLeading "TO:" toTok with
          | none =>
            (Except.error ProtocolError.incorrectRcpt, { c with state := State.Ready })
          | some toAddr =>
            (Except.ok SMTP_OK,
             { c with state := State.ReceivingRcpt { mail with «to» := mail.«to» ++ [toAddr] } })
      | State.ReceivingData mail => receivingDataArm c raw_msg mail
      | _ => (Except.error ProtocolError.unexpectedCommand, { c with state := State.Ready })
    else if command = "data" then
      match state with
      | State.ReceivingRcpt mail =>
        (Except.ok SMTP_SEND_ME_DATA, { c with state := State.ReceivingData mail })
      | State.ReceivingData mail => receivingDataArm c raw_msg mail
      | _ => (Except.error ProtocolError.unexpectedCommand, { c with state := State.Ready })
    else if command = "quit" then
      match state with
      | State.ReceivingData mail =>
        (Except.ok SMTP_GOODBYE, { c with state := State.Received mail })
      | _ => (Except.ok SMTP_GOODBYE, { c with state := State.Ready })
    else
      match state with
      | State.ReceivingData mail => receivingDataArm c raw_msg mail
      | _ => (Except.error ProtocolError.unexpectedCommand, { c with state := State.Ready })

/-- A session driven over a list of input lines, in arrival order: the
connection left behind after feeding each line to `handle_smtp` in turn
(errors included, exactly as the method leaves `self`). -/
def runSmtp (c : Connection) : List String → Connection
  | [] => c
  | raw :: later => runSmtp (handle_smtp c raw).2 later

/-- The raw lines of a run that are supplied while the session is in state
`ReceivingData`, in arrival order. -/
def linesInData (c : Connection) : List String → List String
  | [] => []
  | raw :: later =>
    (match c.state with
     | State.ReceivingData _ => [raw]
     | _ => []) ++ linesInData (handle_smtp c raw).2 later

/-- Concatenation of a list of strings in order. -/
def concatAll : List String → String
  | [] => ""
  | s :: later => s ++ concatAll later

/-- The command verbs whose `handle_smtp` arms carry a wildcard state pattern:
in state `ReceivingData` a line opening with one of these (case-insensitively)
is dispatched as a command, every other tokenizable line falls through to the
`(_, State::ReceivingData(mail))` body-content arm. -/
def dispatchedVerbs : List String :=
  ["noop", "help", "info", "vrfy", "expn", "rset", "auth", "quit"]

/-- A raw line that the `ReceivingData` state treats as body content: it has a
first token and that token does not lowercase to a wildcard-state verb. -/
def isBodyLine (raw : String) : Bool :=
  match splitWhitespace raw with
  | [] => false
  | tok :: _ => decide (toLowercase tok ∉ dispatchedVerbs)

/-- The recipient list carried by a state's envelope (empty when the state
holds no envelope). -/
def rcptsOf : State → List String
  | State.ReceivingRcpt m => m.«to»
  | State.ReceivingData m => m.«to»
  | State.Received m => m.«to»
  | _ => []

/- Concrete fixtures used by counterexamples and witnesses. -/

/-- A full session whose body phase is interrupted by a `NOOP`: the first
envelope (with body `body1`) is silently dropped, a second envelope is built
and received with body `body2` only. -/
def c5Lines : List String :=
  ["HELO x", "MAIL FROM:a", "DATA", "body1", "NOOP",
   "HELO x", "MAIL FROM:b", "DATA", "body2", "QUIT"]

def mail0 : Mail := { «from» := "<a@b>", «to» := ["<c@d>"], data := "line1\n" }

def connAck : Connection :=
  { Connection.new "example.com" with state := State.Acknowledged }

def connData : Connection :=
  { Connection.new "example.com" with state := State.ReceivingData mail0 }

def connRcpt : Connection :=
  { Connection.new "example.com" with state := State.ReceivingRcpt mail0 }

lemma str_append_assoc (a b c : String) : a ++ b ++ c = a ++ (b ++ c) := by
  apply String.ext
  simp [String.data_append, List.append_assoc]

lemma str_append_empty (s : String) : s ++ "" = s := by
  apply String.ext
  simp [String.data_append]

/-- Any line whose first token lowercases to one of the five no-op verbs is
answered `250 Ok` with the connection left in `Ready` (the state taken by
`replace` is never written back by the no-op arm). -/
lemma noop_group_step (c : Connection) (raw tok : String) (rest : List String)
    (hs : splitWhitespace raw = tok :: rest)
    (hv : toLowercase tok = "noop" ∨ toLowercase tok = "help" ∨
      toLowercase tok = "info" ∨ toLowercase tok = "vrfy" ∨
      toLowercase tok = "expn") :
    handle_smtp c raw = (Except.ok SMTP_OK, { c with state := State.Ready }) := by
  unfold handle_smtp
  rw [hs]
  rcases hv with h | h | h | h | h <;> simp +decide [h]

/-- In state `ReceivingData m`, a line with a first token that is not a
wildcard-state verb is handled by the body-content arm. -/
lemma body_step (c : Connection) (m : Mail) (raw tok : String) (rest : List String)
    (hc : c.state = State.ReceivingData m)
    (hs : splitWhitespace raw = tok :: rest)
    (hv : toLowercase tok ∉ dispatchedVerbs) :
    handle_smtp c raw = receivingDataArm c raw m := by
  simp only [dispatchedVerbs, List.mem_cons, not_or] at hv
  unfold handle_smtp
  rw [hs]
  dsimp only
  split_ifs with he hh hn hr ha hm hrc hd hq
  · simp [hc]
  · simp [hc]
  · rcases hn with h | h | h | h | h <;> simp [h] at hv
  · simp [hr] at hv
  · simp [ha] at hv
  · simp [hc]
  · simp [hc]
  · simp [hc]
  · simp [hq] at hv
  · simp [hc]

/-- `QUIT` in state `ReceivingData m` finalizes the envelope. -/
lemma quit_data_step (c : Connection) (m : Mail)
    (hc : c.state = State.ReceivingData m) :
    handle_smtp c "QUIT" =
      (Except.ok SMTP_GOODBYE, { c with state := State.Received m }) := by
  have hs : splitWhitespace "QUIT" = ["QUIT"] := by decide
  have ht : toLowercase "QUIT" = "quit" := by decide
  unfold handle_smtp
  rw [hs]
  simp +decide [ht, hc]

/-- C1: the claim as stated is false — the no-op arm of the source never
writes the taken state back, so from `Acknowledged` a `NOOP` replies `250 Ok`
but leaves the connection in `Ready`, not in the starting state. -/
theorem c1_counterexample :
    (handle_smtp connAck "NOOP").1 = Except.ok SMTP_OK ∧
    connAck.state = State.Acknowledged ∧
    (handle_smtp connAck "NOOP").2.state = State.Ready ∧
    State.Ready ≠ State.Acknowledged := by
  decide

/-- C1 (amended): for every session state and every input line whose first
whitespace-separated token lowercases to one of `noop`/`help`/`info`/`vrfy`/
`expn`, `handle_smtp` replies `250 Ok\n` and the session state afterwards is
`Ready`: the starting state is discarded by the take-then-dispatch step, not
restored. -/
theorem c1_noop_replies_ok_state_ready (c : Connection) (raw tok : String)
    (rest : List String) (hs : splitWhitespace raw = tok :: rest)
    (hv : toLowercase tok = "noop" ∨ toLowercase tok = "help" ∨
      toLowercase tok = "info" ∨ toLowercase tok = "vrfy" ∨
      toLowercase tok = "expn") :
    handle_smtp c raw = (Except.ok SMTP_OK, { c with state := State.Ready }) :=
  noop_group_step c raw tok rest hs hv

/-- Witness for the amended C1 at a concrete input. -/
theorem c1_noop_replies_ok_state_ready_witness :
    handle_smtp connAck "NOOP" =
      (Except.ok SMTP_OK, { connAck with state := State.Ready }) :=
  c1_noop_replies_ok_state_ready connAck "NOOP" "NOOP" [] (by decide)
    (Or.inl (by decide))

/-- C3: the claim as stated is false — in `MAIL FROM: <local@example.com>` the
whitespace split makes `FROM:` its own token, so stripping the prefix leaves
the sender field `""`, not `"<local@example.com>"`. -/
theorem c3_counterexample :
    (handle_smtp connAck "MAIL FROM: <local@example.com>").2.state ≠
      State.ReceivingRcpt { «from» := "<local@example.com>", «to» := [], data := "" } := by
  decide

/-- C3 (amended): from `Acknowledged`, `MAIL FROM: <local@example.com>`
replies `250 Ok\n` and moves to `ReceivingRecipients` holding a `Mail` whose
sender field is the empty string (the address token, separated from `FROM:` by
the space, is never read) and whose recipient list is empty. -/
theorem c3_mail_spaced_sender_empty (g : String) :
    handle_smtp { state := State.Acknowledged, ehlo_greeting := g }
        "MAIL FROM: <local@example.com>" =
      (Except.ok SMTP_OK,
       { state := State.ReceivingRcpt { «from» := "", «to» := [], data := "" },
         ehlo_greeting := g }) := by
  rfl

/-- C7: a line whose first token lowercases to `rset` replies `250 Ok\n` from
every state and forces the session to `Ready`, discarding any in-progress
envelope. -/
theorem c7_rset_forces_ready (c : Connection) (raw tok : String)
    (rest : List String) (hs : splitWhitespace raw = tok :: rest)
    (hv : toLowercase tok = "rset") :
    handle_smtp c raw = (Except.ok SMTP_OK, { c with state := State.Ready }) := by
  unfold handle_smtp
  rw [hs]
  simp +decide [hv]

/-- Witness for C7, from a mid-envelope state. -/
theorem c7_rset_forces_ready_witness :
    handle_smtp connData "RSET" =
      (Except.ok SMTP_OK, { connData with state := State.Ready }) :=
  c7_rset_forces_ready connData "RSET" "RSET" [] (by decide) (by decide)

/-- C9: for every construction domain `d`, an `EHLO` line handled in `Ready`
returns exactly `"250-" ++ d ++ " Hello " ++ d ++ "\n250 AUTH PLAIN LOGIN\n"`
(the domain interpolated verbatim, twice) and moves to `Acknowledged`. -/
theorem c9_ehlo_greeting_verbatim (d raw tok : String) (rest : List String)
    (hs : splitWhitespace raw = tok :: rest) (hv : toLowercase tok = "ehlo") :
    handle_smtp (Connection.new d) raw =
      (Except.ok ("250-" ++ d ++ " Hello " ++ d ++ "\n250 AUTH PLAIN LOGIN\n"),
       { Connection.new d with state := State.Acknowledged }) := by
  unfold handle_smtp
  rw [hs]
  simp +decide [hv, Connection.new]

/-- Witness for C9 at a concrete domain and line. -/
theorem c9_ehlo_greeting_verbatim_witness :
    handle_smtp (Connection.new "example.com") "EHLO client" =
      (Except.ok ("250-" ++ "example.com" ++ " Hello " ++ "example.com" ++
          "\n250 AUTH PLAIN LOGIN\n"),
       { Connection.new "example.com" with state := State.Acknowledged }) :=
  c9_ehlo_greeting_verbatim "example.com" "EHLO client" "EHLO" ["client"]
    (by decide) (by decide)

/-- C10: a line whose first token lowercases to `auth` replies `235 Ok\n` from
every state and leaves the session in `Ready` (the taken state, envelope
included, is silently dropped). -/
theorem c10_auth_accepted_state_ready (c : Connection) (raw tok : String)
    (rest : List String) (hs : splitWhitespace raw = tok :: rest)
    (hv : toLowercase tok = "auth") :
    handle_smtp c raw = (Except.ok SMTP_AUTH_OK, { c with state := State.Ready }) := by
  unfold handle_smtp
  rw [hs]
  simp +decide [hv]

/-- Witness for C10, from a mid-envelope state. -/
theorem c10_auth_accepted_state_ready_witness :
    handle_smtp connData "AUTH PLAIN dGVzdA==" =
      (Except.ok SMTP_AUTH_OK, { connData with state := State.Ready }) :=
  c10_auth_accepted_state_ready connData "AUTH PLAIN dGVzdA==" "AUTH"
    ["PLAIN", "dGVzdA=="] (by decide) (by decide)

/-- C2: the claim as stated is false — the empty-token check runs before the
state is even consulted, so an all-whitespace line in `ReceivingData` fails
with `EmptyCommand` instead of being appended as body content. -/
theorem c2_counterexample :
    (handle_smtp connData "").1 = Except.error ProtocolError.emptyCommand := by
  decide

/-- C2 (amended): in state `ReceivingData m`, a line with no non-whitespace
token still fails with `EmptyCommand` (connection untouched), and a line whose
first token does not lowercase to one of the wildcard-state verbs
`noop`/`help`/`info`/`vrfy`/`expn`/`rset`/`auth`/`quit` is treated as body
content, appended to `m`'s data. (A line opening with one of those verbs is
dispatched as that command instead.) -/
theorem c2_receiving_data_lines (c : Connection) (m : Mail)
    (hc : c.state = State.ReceivingData m) (raw : String) :
    (splitWhitespace raw = [] →
      handle_smtp c raw = (Except.error ProtocolError.emptyCommand, c)) ∧
    (∀ tok rest, splitWhitespace raw = tok :: rest →
      toLowercase tok ∉ dispatchedVerbs →
      handle_smtp c raw =
        (Except.ok (if rustEndsWith raw "\r\n.\r\n" then SMTP_OK else SMTP_EMPTY),
         { c with state := State.ReceivingData { m with data := m.data ++ raw } })) := by
  constructor
  · intro h
    unfold handle_smtp
    rw [h]
  · intro tok rest hs hv
    rw [body_step c m raw tok rest hc hs hv]
    simp [receivingDataArm]

/-- Witness for the amended C2: a command-shaped `EHLO` line is body content
inside `ReceivingData`. -/
theorem c2_receiving_data_lines_witness :
    handle_smtp connData "EHLO x" =
      (Except.ok SMTP_EMPTY,
       { connData with state :=
          State.ReceivingData { mail0 with data := mail0.data ++ "EHLO x" } }) :=
  (c2_receiving_data_lines connData mail0 rfl "EHLO x").2 "EHLO" ["x"]
    (by decide) (by decide)

/-- C6: a body-content line in `ReceivingData m` (first token present and not a
wildcard-state verb) is appended unmodified to `m`'s data, the reply is
`250 Ok\n` exactly when the raw line ends with `\r\n.\r\n` and the empty byte
sequence otherwise, and the state remains `ReceivingData` with the extended
envelope in both cases. -/
theorem c6_body_line_appended (c : Connection) (m : Mail) (raw tok : String)
    (rest : List String) (hc : c.state = State.ReceivingData m)
    (hs : splitWhitespace raw = tok :: rest)
    (hv : toLowercase tok ∉ dispatchedVerbs) :
    handle_smtp c raw =
      (Except.ok (if rustEndsWith raw "\r\n.\r\n" then SMTP_OK else SMTP_EMPTY),
       { c with state := State.ReceivingData { m with data := m.data ++ raw } }) := by
  rw [body_step c m raw tok rest hc hs hv]
  simp [receivingDataArm]

/-- Witness for C6 on a terminator-carrying line: the reply is `250 Ok\n` and
the machine stays in `ReceivingData`. -/
theorem c6_body_line_appended_witness :
    handle_smtp connData "hello\r\n.\r\n" =
      (Except.ok SMTP_OK,
       { connData with state :=
          State.ReceivingData { mail0 with data := mail0.data ++ "hello\r\n.\r\n" } }) :=
  c6_body_line_appended connData mail0 "hello\r\n.\r\n" "hello" ["."]
    rfl (by decide) (by decide)

/-- C4: the claim as stated is false — the `EmptyCommand` failure happens
before the take-then-dispatch step, so an all-whitespace line from
`Acknowledged` errors while leaving the state `Acknowledged`, not `Ready`. -/
theorem c4_counterexample :
    (handle_smtp connAck "   ").1 = Except.error ProtocolError.emptyCommand ∧
    (handle_smtp connAck "   ").2.state = State.Acknowledged ∧
    State.Acknowledged ≠ State.Ready := by
  decide

/-- C4 (amended): whenever `handle_smtp` returns an error, either the error is
`EmptyCommand` and the connection is exactly as it was before the call, or the
session state afterwards is `Ready` (every post-dispatch error leaves the
placeholder in place). -/
theorem c4_error_state_ready_or_untouched (c : Connection) (raw : String)
    (e : ProtocolError) (c' : Connection)
    (h : handle_smtp c raw = (Except.error e, c')) :
    (e = ProtocolError.emptyCommand ∧ c' = c) ∨ c'.state = State.Ready := by
  unfold handle_smtp at h
  rcases hsp : splitWhitespace raw with _ | ⟨tok, rest⟩
  · rw [hsp] at h
    dsimp only at h
    left
    have h1 := congrArg Prod.fst h
    have h2 := congrArg Prod.snd h
    simp only at h1 h2
    exact ⟨(Except.error.injEq _ _).mp h1.symm, h2.symm⟩
  · rw [hsp] at h
    dsimp only at h
    split_ifs at h
    all_goals (repeat' split at h)
    all_goals
      first
        | (exfalso; simp_all [receivingDataArm]; done)
        | (rw [Prod.mk.injEq] at h
           right
           rw [← h.2]
           done)

/-- Witness for the amended C4 at a concrete failing call. -/
theorem c4_error_state_ready_or_untouched_witness :
    (ProtocolError.unexpectedCommand = ProtocolError.emptyCommand ∧
        ({ Connection.new "d" with state := State.Ready } : Connection) =
          Connection.new "d") ∨
      ({ Connection.new "d" with state := State.Ready } : Connection).state =
        State.Ready :=
  c4_error_state_ready_or_untouched (Connection.new "d") "GARBAGE"
    ProtocolError.unexpectedCommand { Connection.new "d" with state := State.Ready }
    (by decide)

/-- C8: a `RCPT` line can append a recipient only while the state is
`ReceivingRcpt` — in every other state the call either fails or (inside
`ReceivingData`, where the line is body content) leaves every recipient list
unchanged — and a successful `RCPT` appends the `TO:`-stripped token to the
envelope's recipient list, leaving the state `ReceivingRcpt` with the envelope
otherwise unchanged. -/
theorem c8_rcpt_only_while_receiving_rcpt (c : Connection) (raw tok : String)
    (rest : List String) (hs : splitWhitespace raw = tok :: rest)
    (hv : toLowercase tok = "rcpt") :
    (∀ m, c.state = State.ReceivingRcpt m →
      ∀ toTok ts, rest = toTok :: ts →
      ∀ addr, stripLeading "TO:" toTok = some addr →
      handle_smtp c raw =
        (Except.ok SMTP_OK,
         { c with state :=
            State.ReceivingRcpt { m with «to» := m.«to» ++ [addr] } })) ∧
    ((∀ m, c.state ≠ State.ReceivingRcpt m) →
      (∃ er, (handle_smtp c raw).1 = Except.error er) ∨
      rcptsOf (handle_smtp c raw).2.state = rcptsOf c.state) := by
  constructor
  · intro m hc toTok ts hrest addr hstrip
    unfold handle_smtp
    rw [hs, hrest]
    simp +decide [hv, hc, hstrip]
  · intro hnot
    obtain ⟨s, g⟩ := c
    cases s with
    | Ready =>
        refine Or.inl ⟨ProtocolError.unexpectedCommand, ?_⟩
        unfold handle_smtp
        rw [hs]
        simp +decide [hv]
    | Acknowledged =>
        refine Or.inl ⟨ProtocolError.unexpectedCommand, ?_⟩
        unfold handle_smtp
        rw [hs]
        simp +decide [hv]
    | ReceivingRcpt m => exact absurd rfl (hnot m)
    | ReceivingData m =>
        right
        rw [body_step ⟨State.ReceivingData m, g⟩ m raw tok rest rfl hs
          (by rw [hv]; decide)]
        simp [receivingDataArm, rcptsOf]
    | Received m =>
        refine Or.inl ⟨ProtocolError.unexpectedCommand, ?_⟩
        unfold handle_smtp
        rw [hs]
        simp +decide [hv]

/-- Witness for C8: a successful `RCPT` in `ReceivingRcpt` appends the
stripped token. -/
theorem c8_rcpt_only_while_receiving_rcpt_witness :
    handle_smtp connRcpt "RCPT TO:<receiver@localhost>" =
      (Except.ok SMTP_OK,
       { connRcpt with state :=
          (State.ReceivingRcpt
            { mail0 with «to» := mail0.«to» ++ ["<receiver@localhost>"] }) }) :=
  (c8_rcpt_only_while_receiving_rcpt connRcpt "RCPT TO:<receiver@localhost>"
      "RCPT" ["TO:<receiver@localhost>"] (by decide) (by decide)).1 mail0 rfl
    "TO:<receiver@localhost>" [] rfl "<receiver@localhost>" (by decide)

/-- C5: the claim as stated is false — a `NOOP` supplied while in
`ReceivingData` is dispatched as a command (dropping the envelope) rather than
appended, so a later `Received` envelope's data can differ from the
concatenation of all lines supplied while in `ReceivingData`: in the run
`c5Lines` those lines are `body1`, `NOOP`, `body2` and the final `QUIT`, but
the received data is `body2` alone. -/
theorem c5_counterexample :
    (runSmtp (Connection.new "d") c5Lines).state =
      State.Received { «from» := "b", «to» := [], data := "body2" } ∧
    linesInData (Connection.new "d") c5Lines = ["body1", "NOOP", "body2", "QUIT"] ∧
    concatAll ["body1", "NOOP", "body2", "QUIT"] ≠ "body2" := by
  decide

/-- C5 (amended): from `ReceivingData m`, feeding any sequence of body-content
lines (each with a first token that does not lowercase to a wildcard-state
verb) leaves the machine in `ReceivingData` with data exactly
`m.data ++` the concatenation of the lines in arrival order, unaltered; a
`QUIT` then produces `Received` carrying exactly that data. -/
theorem c5_body_data_concatenation : ∀ (lines : List String) (c : Connection) (m : Mail),
    c.state = State.ReceivingData m →
    (∀ raw ∈ lines, isBodyLine raw = true) →
    (runSmtp c lines).state =
      State.ReceivingData { m with data := m.data ++ concatAll lines } ∧
    (handle_smtp (runSmtp c lines) "QUIT").2.state =
      State.Received { m with data := m.data ++ concatAll lines } := by
  intro lines
  induction lines with
  | nil =>
      intro c m hc _
      have hm : ({ m with data := m.data ++ concatAll [] } : Mail) = m := by
        simp [concatAll, str_append_empty]
      constructor
      · simp only [runSmtp]
        rw [hm]
        exact hc
      · simp only [runSmtp]
        rw [quit_data_step c m hc, hm]
  | cons raw later ih =>
      intro c m hc hall
      have hb := hall raw (List.mem_cons_self raw later)
      rcases hsp : splitWhitespace raw with _ | ⟨tok, rest⟩
      · rw [isBodyLine, hsp] at hb
        simp at hb
      · have hv : toLowercase tok ∉ dispatchedVerbs := by
          rw [isBodyLine, hsp] at hb
          exact of_decide_eq_true hb
        have hstep := body_step c m raw tok rest hc hsp hv
        have hc2 : (handle_smtp c raw).2.state =
            State.ReceivingData { m with data := m.data ++ raw } := by
          rw [hstep]
          simp [receivingDataArm]
        have H := ih (handle_smtp c raw).2 { m with data := m.data ++ raw } hc2
          (fun r hr => hall r (List.mem_cons_of_mem raw hr))
        simp only [runSmtp, concatAll]
        rw [← str_append_assoc]
        exact H

/-- Witness for the amended C5 on a one-line body followed by `QUIT`. -/
theorem c5_body_data_concatenation_witness :
    (runSmtp connData ["hello\r\n.\r\n"]).state =
      State.ReceivingData
        { mail0 with data := mail0.data ++ concatAll ["hello\r\n.\r\n"] } ∧
    (handle_smtp (runSmtp connData ["hello\r\n.\r\n"]) "QUIT").2.state =
      State.Received
        { mail0 with data := mail0.data ++ concatAll ["hello\r\n.\r\n"] } :=
  c5_body_data_concatenation ["hello\r\n.\r\n"] connData mail0 rfl (by decide)

end Rubbermail
